import Mathlib

/-!
Verification of the QuestDB native socket layer (`src/core/src/main/c/share/net.c`).

The C file is a thin wrapper over POSIX socket syscalls: each JNI entry point
makes at most a few syscalls and classifies their results into a small numeric
contract (byte counts, Retry / Disconnected sentinels, boolean outcomes).
We embed each function as a pure Lean function over an explicit model of the
OS syscall outcome (return value plus `errno`), translated line by line from
the C source. The kernel side of the OS (what `recv` and `MSG_PEEK` do to the
pending byte queue) is modelled separately where a claim needs it.
-/

/-- Modelled from the spec: the sentinel constants `ERETRY` and
`EOTHERDISCONNECT` are defined in the generated header `net.h`, which is not
part of the C sources here; the spec fixes them only as two fixed, distinct
negative values ("Retry sentinel: a fixed negative value distinct from
Disconnected"). We pick `-2`; no theorem below depends on the particular
negative values, only on their sign and distinctness. -/
def com_questdb_network_Net_ERETRY : Int := -2

/-- Modelled from the spec: the Disconnected sentinel from `net.h`; a fixed
negative value distinct from the Retry sentinel. We pick `-1`. -/
def com_questdb_network_Net_EOTHERDISCONNECT : Int := -1

/-- Modelled from the spec: the platform `errno` value for a would-block
condition (`EWOULDBLOCK`); only its identity matters to the C code, which
compares `errno == EWOULDBLOCK`. We use the common value 11. -/
def EWOULDBLOCK : Nat := 11

/-- Outcome of one POSIX I/O syscall (`recv`, `send`, ...): the returned
`ssize_t` value `ret` (`≥ 0` on success, `-1` on failure) and the value of
`errno` after the call (meaningful only when `ret = -1`). -/
structure SysCall where
  ret : Int
  errno : Nat
  deriving DecidableEq, Repr

/-- Embedding of `Java_io_questdb_network_Net_send` (net.c lines 132-144):
`send` returns the syscall result `n` whenever `n > -1`; otherwise `ERETRY`
when `errno == EWOULDBLOCK`, else `EOTHERDISCONNECT`. -/
def Java_io_questdb_network_Net_send (s : SysCall) : Int :=
  if s.ret > -1 then s.ret
  else if s.errno = EWOULDBLOCK then com_questdb_network_Net_ERETRY
  else com_questdb_network_Net_EOTHERDISCONNECT

/-- Embedding of `Java_io_questdb_network_Net_recv` (net.c lines 146-162):
`n > 0` is returned as is; `n == 0` maps to `EOTHERDISCONNECT`; a failure with
`errno == EWOULDBLOCK` maps to `ERETRY`; any other failure maps to
`EOTHERDISCONNECT`. -/
def Java_io_questdb_network_Net_recv (s : SysCall) : Int :=
  if s.ret > 0 then s.ret
  else if s.ret = 0 then com_questdb_network_Net_EOTHERDISCONNECT
  else if s.errno = EWOULDBLOCK then com_questdb_network_Net_ERETRY
  else com_questdb_network_Net_EOTHERDISCONNECT

/-- Embedding of `Java_io_questdb_network_Net_peek` (net.c lines 164-180):
the same classification as `recv`, applied to a `recv(..., MSG_PEEK)`
syscall outcome. -/
def Java_io_questdb_network_Net_peek (s : SysCall) : Int :=
  if s.ret > 0 then s.ret
  else if s.ret = 0 then com_questdb_network_Net_EOTHERDISCONNECT
  else if s.errno = EWOULDBLOCK then com_questdb_network_Net_ERETRY
  else com_questdb_network_Net_EOTHERDISCONNECT

/-- Embedding of `Java_io_questdb_network_Net_isDead` (net.c lines 182-186):
a one-byte probe `recv(fd, &c, 1, 0)`; the function returns
`recv(...) < 1`. -/
def Java_io_questdb_network_Net_isDead (s : SysCall) : Bool :=
  s.ret < 1

/-- The address family constant `AF_INET` (value 2 on the target platforms);
the C code only compares against it and stores it. -/
def AF_INET : Nat := 2

/-- C integer conversion to `uint32_t` (the cast `(uint32_t) address` applied
to a `jint`): reduction modulo `2^32`. `Int.emod` by a positive number is
non-negative, matching the C wraparound. -/
def toU32 (x : Int) : Nat := (x % (2 ^ 32 : Int)).toNat

/-- C integer conversion to `uint16_t` (the cast `(uint16_t) port`):
reduction modulo `2^16`. -/
def toU16 (x : Int) : Nat := (x % (2 ^ 16 : Int)).toNat

/-- C integer conversion to `u_char` (the initialisation `u_char lTTL = ttl`):
reduction modulo `2^8`. -/
def toU8 (x : Int) : Nat := (x % (2 ^ 8 : Int)).toNat

/-- Reinterpretation of an unsigned 32-bit value as a `jint` (the implicit
conversion when a C function with return type `jint` returns a `uint32_t`):
two's-complement wraparound. -/
def toJint (x : Nat) : Int :=
  if x % 2 ^ 32 < 2 ^ 31 then ((x % 2 ^ 32 : Nat) : Int)
  else ((x % 2 ^ 32 : Nat) : Int) - 2 ^ 32

/-- Byte reversal of a 16-bit value: `htons`/`ntohs` on a little-endian host.
The claims are invariant to the host's endianness; we fix the little-endian
realisation so the conversion functions are concrete and executable. -/
def bswap16 (x : Nat) : Nat :=
  (x % 2 ^ 16 % 2 ^ 8) * 2 ^ 8 + x % 2 ^ 16 / 2 ^ 8

/-- Byte reversal of a 32-bit value: `htonl`/`ntohl` on a little-endian
host. -/
def bswap32 (x : Nat) : Nat :=
  (x % 2 ^ 32 % 2 ^ 8) * 2 ^ 24 + (x % 2 ^ 32 / 2 ^ 8 % 2 ^ 8) * 2 ^ 16 +
    (x % 2 ^ 32 / 2 ^ 16 % 2 ^ 8) * 2 ^ 8 + x % 2 ^ 32 / 2 ^ 24

/-- Host-to-network conversion of a 32-bit value (`htonl`). -/
def htonl (x : Nat) : Nat := bswap32 x

/-- Network-to-host conversion of a 32-bit value (`ntohl`). -/
def ntohl (x : Nat) : Nat := bswap32 x

/-- Host-to-network conversion of a 16-bit value (`htons`). -/
def htons (x : Nat) : Nat := bswap16 x

/-- Network-to-host conversion of a 16-bit value (`ntohs`). -/
def ntohs (x : Nat) : Nat := bswap16 x

/-- Outcomes of the OS calls made during socket creation: the `socket()`
return value, and the return values `fcntl(F_SETFL, O_NONBLOCK)` and
`setsockopt(SO_REUSEADDR)` would produce on the new descriptor if called. -/
structure OsEnv where
  socketRet : Int
  fcntlRet : Int
  sockoptRet : Int
  deriving DecidableEq, Repr

/-- Embedding of `Java_io_questdb_network_Net_socketTcp0` (net.c lines
40-56). The result records the value returned to the caller and whether the
descriptor obtained from `socket()` was closed before returning. -/
def Java_io_questdb_network_Net_socketTcp0 (blocking : Bool) (env : OsEnv) :
    Int × Bool :=
  let fd := env.socketRet
  if fd > 0 ∧ ¬blocking then
    if env.fcntlRet < 0 then (-1, true)
    else if env.sockoptRet < 0 then (-1, true)
    else (fd, false)
  else (fd, false)

/-- Embedding of `Java_io_questdb_network_Net_socketUdp0` (net.c lines
58-68): always applies non-blocking mode; same result convention as
`socketTcp0`. The `sockoptRet` field of the environment is unused because
the UDP path makes no `setsockopt` call. -/
def Java_io_questdb_network_Net_socketUdp0 (env : OsEnv) : Int × Bool :=
  let fd := env.socketRet
  if fd > 0 ∧ env.fcntlRet < 0 then (-1, true) else (fd, false)

/-- The `struct sockaddr_in` fields the C code writes: address family,
address and port in network byte order. -/
structure SockaddrIn where
  sin_family : Nat
  sin_addr : Nat
  sin_port : Nat
  deriving DecidableEq, Repr

/-- Embedding of `Java_io_questdb_network_Net_sockaddr` (net.c lines 70-77):
allocates a `sockaddr_in` with family `AF_INET`, address `htonl((uint32_t)
address)` and port `htons((uint16_t) port)`. -/
def Java_io_questdb_network_Net_sockaddr (address port : Int) : SockaddrIn :=
  { sin_family := AF_INET
    sin_addr := htonl (toU32 address)
    sin_port := htons (toU16 port) }

/-- Embedding of `Java_io_questdb_network_Net_freeSockAddr` (net.c lines
79-84) over a heap modelled as the list of live allocation addresses: a
non-null address is released (`free`), the null address is left alone. -/
def Java_io_questdb_network_Net_freeSockAddr (address : Int)
    (live : List Int) : List Int :=
  if address ≠ 0 then live.erase address else live

/-- The `struct ip_mreq` the C code fills in for `IP_ADD_MEMBERSHIP`. -/
structure IpMreq where
  imr_interface : Nat
  imr_multiaddr : Nat
  deriving DecidableEq, Repr

/-- Embedding of `Java_io_questdb_network_Net_join` (net.c lines 113-120):
builds the membership request from the bind and group addresses and returns
`false` exactly when `setsockopt(IP_ADD_MEMBERSHIP)` fails. The oracle `os`
gives the `setsockopt` return value for the request that is passed in. -/
def Java_io_questdb_network_Net_join (os : IpMreq → Int)
    (bindAddress groupAddress : Int) : Bool :=
  let mreq : IpMreq :=
    { imr_interface := htonl (toU32 bindAddress)
      imr_multiaddr := htonl (toU32 groupAddress) }
  if os mreq < 0 then false else true

/-- The value `u_char lTTL = ttl` that `Java_io_questdb_network_Net_setMulticastTtl`
hands to `setsockopt(IP_MULTICAST_TTL)` (net.c line 233). -/
def lTTLof (ttl : Int) : Nat := toU8 ttl

/-- Embedding of `Java_io_questdb_network_Net_setMulticastTtl` (net.c lines
231-239): truncates the ttl to an unsigned byte, hands it to `setsockopt`
(oracle `os`, giving the syscall result for the byte passed in), and returns
0 on success, -1 otherwise. -/
def Java_io_questdb_network_Net_setMulticastTtl (os : Nat → Int)
    (ttl : Int) : Int :=
  if os (lTTLof ttl) = 0 then 0 else -1

/-- Outcome of a `getpeername` call: `fail` when it returns nonzero, or the
family / network-order address / network-order port fields of the peer
sockaddr it filled in. -/
inductive PeerResult where
  | fail : PeerResult
  | ok (family : Nat) (addrNet : Nat) (portNet : Nat) : PeerResult
  deriving DecidableEq, Repr

/-- Embedding of `Java_io_questdb_network_Net_getPeerIP` (net.c lines
296-308): -1 on lookup failure, -2 on a non-IPv4 family, otherwise
`ntohl(sin_addr)` returned through the `jint` return type. -/
def Java_io_questdb_network_Net_getPeerIP (r : PeerResult) : Int :=
  match r with
  | .fail => -1
  | .ok family addrNet _ =>
      if family = AF_INET then toJint (ntohl addrNet) else -2

/-- Embedding of `Java_io_questdb_network_Net_getPeerPort` (net.c lines
310-323): -1 on lookup failure, -2 on a non-IPv4 family, otherwise
`ntohs(sin_port)` returned through the `jint` return type. -/
def Java_io_questdb_network_Net_getPeerPort (r : PeerResult) : Int :=
  match r with
  | .fail => -1
  | .ok family _ portNet =>
      if family = AF_INET then toJint (ntohs portNet) else -2

/-- State of one socket as the kernel sees it for reading: the queue of
pending received bytes and whether the peer has performed an orderly
close. -/
structure SockState where
  pending : List Nat
  peerClosed : Bool
  deriving DecidableEq, Repr

/-- Modelled from the spec: the kernel semantics of `recv` on a non-blocking
socket, with and without `MSG_PEEK`, are outside the C sources (they are OS
behaviour the spec relies on: "the read must not consume the underlying
data"). With data pending, up to `len` bytes are returned and — unless
peeking — removed from the queue; with no data, an orderly peer close yields
0 and an open connection yields a would-block failure. The result is the
syscall outcome, the bytes placed in the caller's buffer, and the socket
state after the call. -/
def osRecv (st : SockState) (len : Nat) (peekFlag : Bool) :
    (SysCall × List Nat) × SockState :=
  if st.pending.isEmpty then
    if st.peerClosed then ((⟨0, 0⟩, []), st)
    else ((⟨-1, EWOULDBLOCK⟩, []), st)
  else
    let bs := st.pending.take len
    ((⟨(bs.length : Int), 0⟩, bs),
      if peekFlag then st else { st with pending := st.pending.drop len })

/-- Pairing of `Java_io_questdb_network_Net_join` with the socket read-state
it leaves behind: the C function performs a single `setsockopt` call and
touches no connection state, so the state passes through unchanged. -/
def joinOnSocket (os : IpMreq → Int) (bindAddress groupAddress : Int)
    (st : SockState) : Bool × SockState :=
  (Java_io_questdb_network_Net_join os bindAddress groupAddress, st)


/-! ## Helper lemmas -/

lemma bswap16_lt (x : Nat) : bswap16 x < 2 ^ 16 := by
  unfold bswap16; omega

lemma bswap32_lt (x : Nat) : bswap32 x < 2 ^ 32 := by
  unfold bswap32; omega

lemma bswap16_bswap16 (x : Nat) : bswap16 (bswap16 x) = x % 2 ^ 16 := by
  obtain ⟨b0, b1, h⟩ : ∃ b0 b1, b0 < 2 ^ 8 ∧ b1 < 2 ^ 8 ∧
      x % 2 ^ 16 = b0 + 2 ^ 8 * b1 :=
    ⟨x % 2 ^ 16 % 2 ^ 8, x % 2 ^ 16 / 2 ^ 8, by omega⟩
  have hb : bswap16 x = b1 + 2 ^ 8 * b0 := by unfold bswap16; omega
  have h1 : (b1 + 2 ^ 8 * b0) % 2 ^ 16 = b1 + 2 ^ 8 * b0 := by omega
  have h2 : (b1 + 2 ^ 8 * b0) % 2 ^ 8 = b1 := by omega
  have h3 : (b1 + 2 ^ 8 * b0) / 2 ^ 8 = b0 := by omega
  rw [hb]; unfold bswap16; rw [h1, h2, h3]; omega

lemma bswap32_bswap32 (x : Nat) : bswap32 (bswap32 x) = x % 2 ^ 32 := by
  obtain ⟨b0, b1, b2, b3, h⟩ : ∃ b0 b1 b2 b3,
      b0 < 2 ^ 8 ∧ b1 < 2 ^ 8 ∧ b2 < 2 ^ 8 ∧ b3 < 2 ^ 8 ∧
      x % 2 ^ 32 = b0 + 2 ^ 8 * b1 + 2 ^ 16 * b2 + 2 ^ 24 * b3 :=
    ⟨x % 2 ^ 32 % 2 ^ 8, x % 2 ^ 32 / 2 ^ 8 % 2 ^ 8,
     x % 2 ^ 32 / 2 ^ 16 % 2 ^ 8, x % 2 ^ 32 / 2 ^ 24, by omega⟩
  have hb : bswap32 x = b3 + 2 ^ 8 * b2 + 2 ^ 16 * b1 + 2 ^ 24 * b0 := by
    unfold bswap32; omega
  have h1 : (b3 + 2 ^ 8 * b2 + 2 ^ 16 * b1 + 2 ^ 24 * b0) % 2 ^ 32
      = b3 + 2 ^ 8 * b2 + 2 ^ 16 * b1 + 2 ^ 24 * b0 := by omega
  have h2 : (b3 + 2 ^ 8 * b2 + 2 ^ 16 * b1 + 2 ^ 24 * b0) % 2 ^ 8 = b3 := by
    omega
  have h3 : (b3 + 2 ^ 8 * b2 + 2 ^ 16 * b1 + 2 ^ 24 * b0) / 2 ^ 8
      = b2 + 2 ^ 8 * b1 + 2 ^ 16 * b0 := by omega
  have h4 : (b2 + 2 ^ 8 * b1 + 2 ^ 16 * b0) % 2 ^ 8 = b2 := by omega
  have h5 : (b3 + 2 ^ 8 * b2 + 2 ^ 16 * b1 + 2 ^ 24 * b0) / 2 ^ 16
      = b1 + 2 ^ 8 * b0 := by omega
  have h6 : (b1 + 2 ^ 8 * b0) % 2 ^ 8 = b1 := by omega
  have h7 : (b3 + 2 ^ 8 * b2 + 2 ^ 16 * b1 + 2 ^ 24 * b0) / 2 ^ 24 = b0 := by
    omega
  rw [hb]; unfold bswap32; rw [h1, h3, h4, h5, h6, h7, h2]; omega

lemma toU32_lt (x : Int) : toU32 x < 2 ^ 32 := by
  unfold toU32; omega

lemma toU16_lt (x : Int) : toU16 x < 2 ^ 16 := by
  unfold toU16; omega

lemma toJint_of_small (x : Nat) (h : x < 2 ^ 31) : toJint x = (x : Int) := by
  unfold toJint; split <;> omega

lemma toJint_eq_neg_one_iff (x : Nat) (h : x < 2 ^ 32) :
    toJint x = -1 ↔ x = 2 ^ 32 - 1 := by
  unfold toJint; split <;> omega

lemma toJint_eq_neg_two_iff (x : Nat) (h : x < 2 ^ 32) :
    toJint x = -2 ↔ x = 2 ^ 32 - 2 := by
  unfold toJint; split <;> omega

/-! ## Claim theorems -/

/-- C1: for every `recv` call, a syscall result `n > 0` is returned as is;
a result of 0 (orderly peer close) yields the Disconnected sentinel and
never the Retry sentinel; a failed syscall with a would-block `errno`
yields the Retry sentinel and never Disconnected; and any other failure
yields the Disconnected sentinel. -/
theorem recv_outcome_classification (s : SysCall) :
    (s.ret > 0 → Java_io_questdb_network_Net_recv s = s.ret) ∧
    (s.ret = 0 →
      Java_io_questdb_network_Net_recv s = com_questdb_network_Net_EOTHERDISCONNECT ∧
      Java_io_questdb_network_Net_recv s ≠ com_questdb_network_Net_ERETRY) ∧
    (s.ret < 0 → s.errno = EWOULDBLOCK →
      Java_io_questdb_network_Net_recv s = com_questdb_network_Net_ERETRY ∧
      Java_io_questdb_network_Net_recv s ≠ com_questdb_network_Net_EOTHERDISCONNECT) ∧
    (s.ret < 0 → s.errno ≠ EWOULDBLOCK →
      Java_io_questdb_network_Net_recv s = com_questdb_network_Net_EOTHERDISCONNECT) := by
  unfold Java_io_questdb_network_Net_recv com_questdb_network_Net_ERETRY
    com_questdb_network_Net_EOTHERDISCONNECT
  refine ⟨fun h => ?_, fun h => ?_, fun h h2 => ?_, fun h h2 => ?_⟩ <;>
    split_ifs <;> simp_all <;> omega

/-- Witness for `recv_outcome_classification`: a would-block failure on a
non-blocking socket with no data pending maps to Retry, not Disconnected. -/
theorem recv_outcome_classification_witness :
    Java_io_questdb_network_Net_recv ⟨-1, EWOULDBLOCK⟩ = com_questdb_network_Net_ERETRY ∧
    Java_io_questdb_network_Net_recv ⟨-1, EWOULDBLOCK⟩ ≠ com_questdb_network_Net_EOTHERDISCONNECT :=
  (recv_outcome_classification ⟨-1, EWOULDBLOCK⟩).2.2.1 (by decide) rfl

/-- C2 counterexample: probing a connected socket whose peer has NOT closed
but which has no data pending (the `osRecv` model state with an empty queue
and `peerClosed = false`; the one-byte probe then fails with `EWOULDBLOCK`)
makes `isDead` report `true`, refuting the claim that `isDead` returns
`false` on every connected socket whose peer has not closed. -/
theorem isDead_true_on_open_socket_without_data :
    Java_io_questdb_network_Net_isDead
      (osRecv { pending := [], peerClosed := false } 1 false).1.1 = true ∧
    ({ pending := [], peerClosed := false } : SockState).peerClosed = false := by
  constructor <;> rfl

/-- C2 amended: `isDead` returns `true` exactly when the one-byte probe
returns 0 or fails — a would-block failure included — and `false` exactly
when a byte was available (and, the probe being a plain `recv`, consumed);
in particular a connected socket whose peer has not closed reports `false`
only when data was pending, and reports `true` when the non-blocking probe
finds no data. -/
theorem isDead_probe_classification :
    (∀ s : SysCall, s.ret ≥ -1 →
      (Java_io_questdb_network_Net_isDead s = true ↔ s.ret ≤ 0)) ∧
    (∀ (b : Nat) (bs : List Nat) (closed : Bool),
      Java_io_questdb_network_Net_isDead
        (osRecv { pending := b :: bs, peerClosed := closed } 1 false).1.1 = false ∧
      (osRecv { pending := b :: bs, peerClosed := closed } 1 false).2.pending = bs) ∧
    (∀ closed : Bool,
      Java_io_questdb_network_Net_isDead
        (osRecv { pending := [], peerClosed := closed } 1 false).1.1 = true) := by
  refine ⟨fun s h => ?_, fun b bs closed => ?_, fun closed => ?_⟩
  · simp only [Java_io_questdb_network_Net_isDead, decide_eq_true_eq]
    omega
  · constructor <;> simp [osRecv, Java_io_questdb_network_Net_isDead]
  · cases closed <;> rfl

/-- Witness for `isDead_probe_classification`: an orderly close (probe
returns 0) makes `isDead` report `true`. -/
theorem isDead_probe_classification_witness :
    Java_io_questdb_network_Net_isDead ⟨0, 0⟩ = true :=
  (isDead_probe_classification.1 ⟨0, 0⟩ (by decide)).mpr (by decide)

/-- C3 counterexample: a successful zero-length `send` (the OS call returns
0, as POSIX allows for a zero-byte send) makes the function return 0,
which is neither a value `n > 0`, nor the Retry sentinel, nor the
Disconnected sentinel — refuting the claim that no other outcome exists. -/
theorem send_zero_outside_claimed_range :
    Java_io_questdb_network_Net_send ⟨0, 0⟩ = 0 ∧
    ¬ 0 < Java_io_questdb_network_Net_send ⟨0, 0⟩ ∧
    Java_io_questdb_network_Net_send ⟨0, 0⟩ ≠ com_questdb_network_Net_ERETRY ∧
    Java_io_questdb_network_Net_send ⟨0, 0⟩ ≠ com_questdb_network_Net_EOTHERDISCONNECT := by
  refine ⟨rfl, by decide, by decide, by decide⟩

/-- C3 amended: `send` returns the OS result `n` whenever `n ≥ 0` (so a
zero-length send yields 0, not only `n > 0`); it returns the Retry sentinel
exactly when the OS reports a would-block failure — never the Disconnected
sentinel there — and the Disconnected sentinel for every other OS failure;
no further outcome is possible. -/
theorem send_outcome_classification (s : SysCall) :
    (s.ret ≥ 0 → Java_io_questdb_network_Net_send s = s.ret) ∧
    (s.ret < 0 → s.errno = EWOULDBLOCK →
      Java_io_questdb_network_Net_send s = com_questdb_network_Net_ERETRY ∧
      Java_io_questdb_network_Net_send s ≠ com_questdb_network_Net_EOTHERDISCONNECT) ∧
    (s.ret < 0 → s.errno ≠ EWOULDBLOCK →
      Java_io_questdb_network_Net_send s = com_questdb_network_Net_EOTHERDISCONNECT) ∧
    (Java_io_questdb_network_Net_send s = s.ret ∨
      Java_io_questdb_network_Net_send s = com_questdb_network_Net_ERETRY ∨
      Java_io_questdb_network_Net_send s = com_questdb_network_Net_EOTHERDISCONNECT) := by
  unfold Java_io_questdb_network_Net_send com_questdb_network_Net_ERETRY
    com_questdb_network_Net_EOTHERDISCONNECT
  refine ⟨fun h => ?_, fun h h2 => ?_, fun h h2 => ?_, ?_⟩ <;>
    split_ifs <;> simp_all <;> omega

/-- Witness for `send_outcome_classification`: a would-block failure maps to
Retry and not to Disconnected. -/
theorem send_outcome_classification_witness :
    Java_io_questdb_network_Net_send ⟨-1, EWOULDBLOCK⟩ = com_questdb_network_Net_ERETRY ∧
    Java_io_questdb_network_Net_send ⟨-1, EWOULDBLOCK⟩ ≠ com_questdb_network_Net_EOTHERDISCONNECT :=
  (send_outcome_classification ⟨-1, EWOULDBLOCK⟩).2.1 (by decide) rfl

/-- C4: for `socketTcp0(blocking = false)` and `socketUdp0`, if `socket()`
yields a descriptor and a setup step that runs on it fails (for TCP:
`fcntl(O_NONBLOCK)`, or `setsockopt(SO_REUSEADDR)` after a successful
`fcntl`; for UDP: `fcntl(O_NONBLOCK)`), the descriptor is closed and the
failure sentinel -1 is returned, so no half-configured descriptor escapes. -/
theorem socket_setup_rollback (env : OsEnv) :
    (env.socketRet > 0 → env.fcntlRet < 0 ∨ env.sockoptRet < 0 →
      Java_io_questdb_network_Net_socketTcp0 false env = (-1, true)) ∧
    (env.socketRet > 0 → env.fcntlRet < 0 →
      Java_io_questdb_network_Net_socketUdp0 env = (-1, true)) := by
  constructor
  · intro h1 h2
    by_cases hf : env.fcntlRet < 0
    · simp [Java_io_questdb_network_Net_socketTcp0, h1, hf]
    · have hs : env.sockoptRet < 0 := by tauto
      simp [Java_io_questdb_network_Net_socketTcp0, h1, hf, hs]
  · intro h1 h2
    simp [Java_io_questdb_network_Net_socketUdp0, h1, h2]

/-- Witness for `socket_setup_rollback`: with descriptor 5 and a failing
`fcntl`, TCP creation reports -1 and closes the descriptor; same for UDP
with descriptor 7. -/
theorem socket_setup_rollback_witness :
    Java_io_questdb_network_Net_socketTcp0 false ⟨5, -1, 0⟩ = (-1, true) ∧
    Java_io_questdb_network_Net_socketUdp0 ⟨7, -1, 0⟩ = (-1, true) :=
  ⟨(socket_setup_rollback ⟨5, -1, 0⟩).1 (by decide) (Or.inl (by decide)),
   (socket_setup_rollback ⟨7, -1, 0⟩).2 (by decide) (by decide)⟩

/-- C5: `peek` classifies every syscall outcome identically to `recv`; and
in the kernel model a peeking read leaves the socket state unchanged,
produces the same syscall outcome and buffer contents as a plain read
would, and a subsequent `recv` of the same length reads exactly the bytes
the peek returned. -/
theorem peek_refines_recv :
    (∀ s : SysCall,
      Java_io_questdb_network_Net_peek s = Java_io_questdb_network_Net_recv s) ∧
    (∀ (st : SockState) (len : Nat),
      (osRecv st len true).2 = st ∧
      (osRecv st len true).1 = (osRecv st len false).1 ∧
      (osRecv ((osRecv st len true).2) len false).1.2
        = (osRecv st len true).1.2) := by
  refine ⟨fun s => rfl, fun st len => ?_⟩
  rcases st with ⟨pending, closed⟩
  cases pending <;> cases closed <;> simp [osRecv]

/-- C6 counterexample: a successful `getpeername` lookup of an IPv4 peer
whose host-order address is `0xFFFFFFFF` (255.255.255.255) makes
`getPeerIP` return -1 through the `jint` return type, the same value as a
failed lookup — refuting the claim that -1 is returned exactly when the
lookup fails. -/
theorem getPeerIP_sentinel_collision :
    Java_io_questdb_network_Net_getPeerIP
      (PeerResult.ok AF_INET 4294967295 0) = -1 ∧
    Java_io_questdb_network_Net_getPeerIP PeerResult.fail = -1 ∧
    PeerResult.ok AF_INET 4294967295 0 ≠ PeerResult.fail := by
  refine ⟨by decide, rfl, by decide⟩

/-- C6 amended: `getPeerPort` returns -1 exactly when the lookup fails and
-2 exactly when the peer family is not IPv4, otherwise the host-order port
(which is never -1 or -2). `getPeerIP` returns -1 on failure, -2 on a
non-IPv4 family, and otherwise the host-order peer address reinterpreted as
a signed 32-bit value, so the host-order addresses `2^32 - 1` and
`2^32 - 2` are the exact additional cases colliding with the -1 and -2
sentinels. -/
theorem peer_info_classification (f a p : Nat) :
    (Java_io_questdb_network_Net_getPeerIP PeerResult.fail = -1 ∧
      Java_io_questdb_network_Net_getPeerPort PeerResult.fail = -1) ∧
    (f ≠ AF_INET →
      Java_io_questdb_network_Net_getPeerIP (PeerResult.ok f a p) = -2 ∧
      Java_io_questdb_network_Net_getPeerPort (PeerResult.ok f a p) = -2) ∧
    (f = AF_INET →
      Java_io_questdb_network_Net_getPeerIP (PeerResult.ok f a p)
        = toJint (ntohl a) ∧
      Java_io_questdb_network_Net_getPeerPort (PeerResult.ok f a p)
        = ((ntohs p : Nat) : Int) ∧
      Java_io_questdb_network_Net_getPeerPort (PeerResult.ok f a p) ≠ -1 ∧
      Java_io_questdb_network_Net_getPeerPort (PeerResult.ok f a p) ≠ -2 ∧
      (Java_io_questdb_network_Net_getPeerIP (PeerResult.ok f a p) = -1 ↔
        ntohl a = 2 ^ 32 - 1) ∧
      (Java_io_questdb_network_Net_getPeerIP (PeerResult.ok f a p) = -2 ↔
        ntohl a = 2 ^ 32 - 2)) := by
  refine ⟨⟨rfl, rfl⟩, fun h => ?_, fun h => ?_⟩
  · simp [Java_io_questdb_network_Net_getPeerIP,
      Java_io_questdb_network_Net_getPeerPort, h]
  · have hp : ntohs p < 2 ^ 31 := by
      have := bswap16_lt p
      unfold ntohs
      omega
    have ha : ntohl a < 2 ^ 32 := bswap32_lt a
    refine ⟨by simp [Java_io_questdb_network_Net_getPeerIP, h], ?_, ?_, ?_,
      ?_, ?_⟩
    · simp [Java_io_questdb_network_Net_getPeerPort, h, toJint_of_small _ hp]
    · simp [Java_io_questdb_network_Net_getPeerPort, h, toJint_of_small _ hp]
    · simp [Java_io_questdb_network_Net_getPeerPort, h, toJint_of_small _ hp]
    · simp only [Java_io_questdb_network_Net_getPeerIP, h, if_pos rfl]
      exact toJint_eq_neg_one_iff _ ha
    · simp only [Java_io_questdb_network_Net_getPeerIP, h, if_pos rfl]
      exact toJint_eq_neg_two_iff _ ha

/-- Witness for `peer_info_classification`: a non-IPv4 peer (family 10)
yields -2 from both functions, and an IPv4 peer with port bytes 0 yields a
non-sentinel port. -/
theorem peer_info_classification_witness :
    (Java_io_questdb_network_Net_getPeerIP (PeerResult.ok 10 0 0) = -2 ∧
      Java_io_questdb_network_Net_getPeerPort (PeerResult.ok 10 0 0) = -2) ∧
    Java_io_questdb_network_Net_getPeerPort (PeerResult.ok 2 0 5) ≠ -1 :=
  ⟨(peer_info_classification 10 0 0).2.1 (by decide),
   ((peer_info_classification 2 0 5).2.2 rfl).2.2.1⟩

/-- C7: `sockaddr` builds a descriptor whose family is `AF_INET`, whose
stored address is the network-order conversion of the given host-order
address, and whose stored port is the network-order conversion of the given
host-order port; converting the stored fields back to host order recovers
the caller's values, so the conversion is internal. -/
theorem sockaddr_build_network_order (address port : Int) :
    (Java_io_questdb_network_Net_sockaddr address port).sin_family
      = AF_INET ∧
    (Java_io_questdb_network_Net_sockaddr address port).sin_addr
      = htonl (toU32 address) ∧
    (Java_io_questdb_network_Net_sockaddr address port).sin_port
      = htons (toU16 port) ∧
    ntohl (Java_io_questdb_network_Net_sockaddr address port).sin_addr
      = toU32 address ∧
    ntohs (Java_io_questdb_network_Net_sockaddr address port).sin_port
      = toU16 port := by
  refine ⟨rfl, rfl, rfl, ?_, ?_⟩
  · show bswap32 (bswap32 (toU32 address)) = toU32 address
    rw [bswap32_bswap32]
    have := toU32_lt address
    omega
  · show bswap16 (bswap16 (toU16 port)) = toU16 port
    rw [bswap16_bswap16]
    have := toU16_lt port
    omega

/-- C8: `freeSockAddr` on the null address is a no-op that changes no heap
state — covering a handle already freed and replaced by the null sentinel —
and on a non-null address releases it: the heap becomes the old heap with
that address erased, and on a duplicate-free heap the address is no longer
live afterwards. -/
theorem freeSockAddr_release_and_null_noop (live : List Int) (a : Int) :
    Java_io_questdb_network_Net_freeSockAddr 0 live = live ∧
    (a ≠ 0 →
      Java_io_questdb_network_Net_freeSockAddr a live = live.erase a ∧
      (live.Nodup → a ∉ Java_io_questdb_network_Net_freeSockAddr a live)) := by
  refine ⟨by simp [Java_io_questdb_network_Net_freeSockAddr], fun h => ?_⟩
  refine ⟨by simp [Java_io_questdb_network_Net_freeSockAddr, h], fun hn => ?_⟩
  unfold Java_io_questdb_network_Net_freeSockAddr
  rw [if_pos h]
  exact hn.not_mem_erase

/-- Witness for `freeSockAddr_release_and_null_noop`: freeing address 7 in
the duplicate-free heap `[7, 9]` erases it and leaves it dead, and freeing
the null address changes nothing. -/
theorem freeSockAddr_release_and_null_noop_witness :
    Java_io_questdb_network_Net_freeSockAddr 0 [7, 9] = [7, 9] ∧
    Java_io_questdb_network_Net_freeSockAddr 7 [7, 9] = List.erase [7, 9] 7 ∧
    7 ∉ Java_io_questdb_network_Net_freeSockAddr 7 [7, 9] :=
  ⟨(freeSockAddr_release_and_null_noop [7, 9] 7).1,
   ((freeSockAddr_release_and_null_noop [7, 9] 7).2 (by decide)).1,
   ((freeSockAddr_release_and_null_noop [7, 9] 7).2 (by decide)).2 (by decide)⟩

/-- C9: `join` returns `true` exactly when the `setsockopt` membership
request succeeds (returns a non-negative value) for the network-order
request built from the bind and group addresses, and `false` exactly when
it fails; the call leaves the socket state unchanged, so a failed join does
not corrupt subsequent calls on the same handle. -/
theorem join_outcome_and_state (os : IpMreq → Int)
    (bindAddress groupAddress : Int) (st : SockState) :
    (Java_io_questdb_network_Net_join os bindAddress groupAddress = true ↔
      0 ≤ os { imr_interface := htonl (toU32 bindAddress),
               imr_multiaddr := htonl (toU32 groupAddress) }) ∧
    (Java_io_questdb_network_Net_join os bindAddress groupAddress = false ↔
      os { imr_interface := htonl (toU32 bindAddress),
           imr_multiaddr := htonl (toU32 groupAddress) } < 0) ∧
    (joinOnSocket os bindAddress groupAddress st).2 = st := by
  refine ⟨?_, ?_, rfl⟩ <;>
    simp only [Java_io_questdb_network_Net_join] <;> split_ifs with h <;>
    simp <;> omega

/-- C10: the value `setMulticastTtl` hands to the OS is the 32-bit ttl
argument reduced modulo 256, so any two ttl arguments congruent modulo 256
hand the OS the same byte and produce the same result. -/
theorem setMulticastTtl_truncates_mod_256 (os : Nat → Int) (t1 t2 : Int) :
    lTTLof t1 = ((t1 % 256).toNat) ∧
    (t1 % 256 = t2 % 256 →
      lTTLof t1 = lTTLof t2 ∧
      Java_io_questdb_network_Net_setMulticastTtl os t1 =
        Java_io_questdb_network_Net_setMulticastTtl os t2) := by
  refine ⟨rfl, fun h => ?_⟩
  have he : lTTLof t1 = lTTLof t2 := by
    unfold lTTLof toU8
    omega
  exact ⟨he, by unfold Java_io_questdb_network_Net_setMulticastTtl; rw [he]⟩

/-- Witness for `setMulticastTtl_truncates_mod_256`: the ttl arguments 257
and 1 are congruent modulo 256 and configure the same TTL byte with the
same result. -/
theorem setMulticastTtl_truncates_mod_256_witness :
    lTTLof 257 = lTTLof 1 ∧
    Java_io_questdb_network_Net_setMulticastTtl (fun _ => 0) 257 =
      Java_io_questdb_network_Net_setMulticastTtl (fun _ => 0) 1 :=
  (setMulticastTtl_truncates_mod_256 (fun _ => 0) 257 1).2 (by decide)
